import Mathlib

/-!
Shallow embedding of the download orchestrator in src/main.py
(telegram-media-downloader) and proofs about its claimed properties.

The embedding models:
  * the filesystem as an association list from path to byte length,
  * the download history ledger as a nested association list
    (chat-id string to (message-id string to record)), mirroring the JSON
    document written by save_download_history,
  * one item's worker download_media (src/main.py lines 99-138) as a
    fuel-indexed recursive function producing a result, a byte-transfer
    tally, a successor state and an event trace,
  * the batch operation download_media_list (lines 140-153),
  * load_download_history (lines 51-55) and process_channel_input
    (lines 43-49).

External collaborators are modelled parametrically: the Telethon call
message.download_media(file=temp_path, progress_callback=...) takes no
resume-offset argument and always writes the media from byte 0 into the
named file (truncating it); each attempt's outcome (success, timeout,
other error) is supplied by an oracle Nat → Outcome indexed by attempt
number.
-/

/-- A media message as consumed by download_media: Telethon message with
id, chat_id, a photo/document discriminator, file name, file size and
date (src/main.py lines 99-103, 115, 125-129). -/
structure Msg where
  id : Nat
  chatId : Int
  isPhoto : Bool
  fileName : String
  fileSize : Nat
  date : String
  deriving DecidableEq, Repr

/-- filename = f"{message.id}.jpg" for photos, else message.file.name
(src/main.py line 101). -/
def msgFilename (m : Msg) : String :=
  if m.isPhoto then toString m.id ++ ".jpg" else m.fileName

/-- path = os.path.join(download_dir, filename) (src/main.py line 102). -/
def finalPath (dir : String) (m : Msg) : String :=
  dir ++ "/" ++ msgFilename m

/-- temp_path = f"{path}.part" (src/main.py line 103). -/
def tmpPath (dir : String) (m : Msg) : String :=
  finalPath dir m ++ ".part"

/-- The filesystem: paths mapped to byte lengths (only lengths are
observable in the claims). -/
abbrev FS := List (String × Nat)

/-- os.path.exists. -/
def fileExists (fs : FS) (p : String) : Bool :=
  (fs.lookup p).isSome

/-- os.path.getsize, 0 when absent (the code only calls it after an
existence check). -/
def getSize (fs : FS) (p : String) : Nat :=
  (fs.lookup p).getD 0

/-- Generic association-list (dict) update: insert or overwrite key k. -/
def setAssoc {β : Type} (l : List (String × β)) (k : String) (v : β) :
    List (String × β) :=
  (k, v) :: l.filter (fun e => !(e.1 == k))

/-- Write a file of the given length (create or truncate-and-rewrite). -/
def setFile (fs : FS) (p : String) (n : Nat) : FS :=
  setAssoc fs p n

/-- Remove a file (the source side of os.rename). -/
def removeFile (fs : FS) (p : String) : FS :=
  fs.filter (fun e => !(e.1 == p))

/-- One ledger entry: {'filename': ..., 'size': ..., 'timestamp': ...}
(src/main.py lines 125-129). -/
structure DRecord where
  filename : String
  size : Nat
  timestamp : String
  deriving DecidableEq, Repr

/-- Per-chat ledger: message-id string to record. -/
abbrev ChatHistory := List (String × DRecord)

/-- The ledger: chat-id string to per-chat ledger. -/
abbrev History := List (String × ChatHistory)

/-- str(message.id) in history.get(str(message.chat_id), {})
(src/main.py line 105). -/
def historyContains (h : History) (chat idS : String) : Bool :=
  match h.lookup chat with
  | some ch => (ch.lookup idS).isSome
  | none => false

/-- history.setdefault(str(chat_id), {})[str(id)] = record
(src/main.py line 125). -/
def historyRecord (h : History) (chat idS : String) (r : DRecord) : History :=
  setAssoc h chat (setAssoc ((h.lookup chat).getD []) idS r)

/-- Outcome of one provider download attempt, supplied by the
environment: success (full media written), asyncio.TimeoutError after
the provider wrote w bytes into the temp file, any other exception
raised by the download call, or an exception raised at the os.rename
step after a complete download. -/
inductive Outcome where
  | success
  | timeout (written : Nat)
  | failure
  | renameFailure
  deriving DecidableEq, Repr

/-- Observable events of one worker run, in program order. -/
inductive Event where
  | semAcquire
  | semRelease
  | rateAcquire
  | streamStart (path : String) (offset : Nat)
  | renameFile (src dst : String)
  | recordLedger (chat idS : String)
  | persistLedger
  | logSkip
  | logDone
  | logTimeout
  | logError
  | sleep
  deriving DecidableEq, Repr

/-- Mutable state threaded through a run: filesystem, in-memory history
dict, and the durable history file (last save_download_history write). -/
structure Sys where
  fs : FS
  history : History
  saved : Option History
  deriving DecidableEq, Repr

/-- Result of one download_media call: Python return value (0 or 1),
total bytes the provider transferred during the call, successor state,
and the event trace. -/
structure DLResult where
  ret : Nat
  bytes : Nat
  st : Sys
  trace : List Event
  deriving DecidableEq, Repr

/-- The dedup check of src/main.py line 105:
os.path.exists(path) or str(message.id) in history.get(str(message.chat_id), {}). -/
def dedupHit (fs : FS) (h : History) (dir : String) (m : Msg) : Bool :=
  fileExists fs (finalPath dir m) ||
    historyContains h (toString m.chatId) (toString m.id)

/-- download_media (src/main.py lines 99-138), embedded with an attempt
oracle prov and fuel bounding the retry recursion depth (the source
recursion at line 135 is unbounded; every theorem supplies enough fuel).
k is the index of the current attempt into the oracle. Faithful points:
the dedup check (line 105) runs before the semaphore acquisition
(line 109); downloaded_size = getsize of the .part file (lines 112-113)
feeds only the progress bar initial value (line 115); the rate limiter
is acquired once per attempt (line 119); the Telethon download call
(line 120) carries no resume offset, so the stream always starts at
offset 0 and rewrites the temp file; on success the code renames, logs,
records into the history dict, saves it, and returns 1 (lines 122-132);
on asyncio.TimeoutError it returns the recursive retry, whose own
semaphore acquisition happens while the outer permit is still held, the
outer release following only when the retry's value is returned
(lines 133-135); on any other exception it logs and returns 0
(lines 136-138). -/
def download_media (m : Msg) (dir : String) (prov : Nat → Outcome) :
    Sys → Nat → Nat → DLResult
  | st, _, 0 => { ret := 0, bytes := 0, st := st, trace := [] }
  | st, k, fuel + 1 =>
    if dedupHit st.fs st.history dir m then
      { ret := 0, bytes := 0, st := st, trace := [Event.logSkip] }
    else
      match prov k with
      | Outcome.success =>
        let hist1 := historyRecord st.history (toString m.chatId)
          (toString m.id)
          { filename := msgFilename m, size := m.fileSize,
            timestamp := m.date }
        { ret := 1, bytes := m.fileSize,
          st := { fs := setFile (removeFile (setFile st.fs (tmpPath dir m)
                    m.fileSize) (tmpPath dir m)) (finalPath dir m) m.fileSize,
                  history := hist1, saved := some hist1 },
          trace := [Event.semAcquire, Event.rateAcquire,
            Event.streamStart (tmpPath dir m) 0,
            Event.renameFile (tmpPath dir m) (finalPath dir m),
            Event.logDone,
            Event.recordLedger (toString m.chatId) (toString m.id),
            Event.persistLedger, Event.semRelease] }
      | Outcome.timeout w =>
        let st1 : Sys := { st with fs := setFile st.fs (tmpPath dir m) w }
        let r := download_media m dir prov st1 (k + 1) fuel
        { ret := r.ret, bytes := w + r.bytes, st := r.st,
          trace := [Event.semAcquire, Event.rateAcquire,
            Event.streamStart (tmpPath dir m) 0, Event.logTimeout]
            ++ r.trace ++ [Event.semRelease] }
      | Outcome.failure =>
        { ret := 0, bytes := 0, st := st,
          trace := [Event.semAcquire, Event.rateAcquire,
            Event.streamStart (tmpPath dir m) 0, Event.logError,
            Event.semRelease] }
      | Outcome.renameFailure =>
        { ret := 0, bytes := m.fileSize,
          st := { st with fs := setFile st.fs (tmpPath dir m) m.fileSize },
          trace := [Event.semAcquire, Event.rateAcquire,
            Event.streamStart (tmpPath dir m) 0, Event.logError,
            Event.semRelease] }

/-- Sequential interleaving of the batch's workers (asyncio.gather over
the tasks of src/main.py lines 147-150; the shared history dict and
filesystem are threaded in submission order). Returns the per-item
results, the total bytes transferred, and the final state. -/
def runItems (dir : String) (prov : Nat → Nat → Outcome) (fuel : Nat) :
    List Msg → Nat → Sys → List Nat × Nat × Sys
  | [], _, st => ([], 0, st)
  | m :: rest, i, st =>
    let r := download_media m dir (prov i) st 0 fuel
    let rec2 := runItems dir prov fuel rest (i + 1) r.st
    (r.ret :: rec2.1, r.bytes + rec2.2.1, rec2.2.2)

/-- Result of download_media_list: the Python return value (the source
function has no return statement, so it returns None), the count written
by the final logging call, the per-item worker results, the total bytes
transferred, and the final state. -/
structure BatchResult where
  ret : Option Nat
  logged : Nat
  results : List Nat
  bytes : Nat
  st : Sys
  deriving DecidableEq, Repr

/-- download_media_list (src/main.py lines 140-153): makes the download
directory, loads one history snapshot h0, runs every item's worker,
gathers all results, sums them into downloaded, logs that sum, and falls
off the end of the function body (returning None). The message fetch
client.get_messages is external; items are taken as already resolved. -/
def download_media_list (items : List Msg) (dir : String)
    (prov : Nat → Nat → Outcome) (fuel : Nat) (fs0 : FS) (h0 : History)
    (saved0 : Option History) : BatchResult :=
  let run := runItems dir prov fuel items 0 { fs := fs0, history := h0, saved := saved0 }
  { ret := none, logged := run.1.sum, results := run.1,
    bytes := run.2.1, st := run.2.2 }

/-- HISTORY_FILE = 'download_history.json' (src/main.py line 39). -/
def HISTORY_FILE : String := "download_history.json"

/-- load_download_history (src/main.py lines 51-55): if the ledger file
exists, its contents are handed to json.load, whose result — or parse
exception — is returned as-is (the function installs no handler);
otherwise the empty dict is returned. The text filesystem is an
association list path ↦ contents, and json.load is the parameter parse
(an external library call); Except.error models a raised exception. -/
def load_download_history (files : List (String × String))
    (parse : String → Except Unit History) : Except Unit History :=
  match files.lookup HISTORY_FILE with
  | some content => parse content
  | none => Except.ok []

/-- A decimal digit character, selected by value (fallback for inputs
above 9 never reached by callers). -/
def digitChar (n : Nat) : Char :=
  if n = 0 then '0' else if n = 1 then '1' else if n = 2 then '2'
  else if n = 3 then '3' else if n = 4 then '4' else if n = 5 then '5'
  else if n = 6 then '6' else if n = 7 then '7' else if n = 8 then '8'
  else '9'

/-- Decimal digits of n by repeated division, most significant first;
fuel-indexed (fuel = n suffices since n / 10 < n for n > 0). -/
def natReprAux : Nat → Nat → List Char
  | 0, _ => []
  | fuel + 1, n =>
    if n = 0 then [] else natReprAux fuel (n / 10) ++ [digitChar (n % 10)]

/-- Python str(n) for a natural number: its decimal representation
without leading zeros. -/
def natRepr (n : Nat) : List Char :=
  if n = 0 then ['0'] else natReprAux n n

/-- Python str.isdigit restricted to ASCII content: nonempty and all
characters are 0-9. -/
def pyIsdigit (cs : List Char) : Bool :=
  !cs.isEmpty && cs.all Char.isDigit

/-- Numeric value of a digit string (how Python int reads the digits). -/
def natOfDigits (cs : List Char) : Nat :=
  cs.foldl (fun a c => a * 10 + (c.toNat - 48)) 0

/-- Python int(s): an optional single leading sign followed by digits;
none models the ValueError raised on any other shape. -/
def pyInt? (cs : List Char) : Option Int :=
  if cs.head? = some '-' then
    if pyIsdigit cs.tail then some (-(natOfDigits cs.tail : Int)) else none
  else if cs.head? = some '+' then
    if pyIsdigit cs.tail then some ((natOfDigits cs.tail : Int)) else none
  else if pyIsdigit cs then some ((natOfDigits cs : Int)) else none

/-- The characters of f"100{a}" (the digits of the f-string
f"-100{abs(num)}" after its sign). -/
def minus100Digits (a : Nat) : List Char :=
  '1' :: '0' :: '0' :: natRepr a

/-- Result of process_channel_input: the input string unchanged, or an
integer (Python returns either type; strings are modelled as their
character lists). -/
inductive ChanId where
  | str (cs : List Char)
  | num (n : Int)
  deriving DecidableEq, Repr

/-- process_channel_input (src/main.py lines 43-49):
if channel_input.startswith('@') return it unchanged; elif
channel_input.lstrip('-').isdigit() then num = int(channel_input) and
the result is num if num > 0 else int(f"-100{abs(num)}"); otherwise
return the input unchanged. lstrip('-') removes every leading '-';
int() raising ValueError is modelled by Except.error, propagating to
the caller. -/
def process_channel_input (cs : List Char) : Except Unit ChanId :=
  if cs.head? = some '@' then Except.ok (ChanId.str cs)
  else if pyIsdigit (cs.dropWhile (fun c => c == '-')) then
    match pyInt? cs with
    | some n =>
      if 0 < n then Except.ok (ChanId.num n)
      else
        match pyInt? ('-' :: minus100Digits n.natAbs) with
        | some v => Except.ok (ChanId.num v)
        | none => Except.error ()
    | none => Except.error ()
  else Except.ok (ChanId.str cs)

/-- The amended C10 claim, written from its words: '@'-prefixed input is
returned unchanged; input with at most one leading '-' whose remainder
is all digits parses, giving the integer itself when positive and
otherwise the integer -100 concatenated with the absolute value's
digits; input with two or more leading '-' followed by digits makes
int() raise ValueError, which propagates; every other input is returned
unchanged. -/
def channel_amended_spec (cs : List Char) : Except Unit ChanId :=
  if cs.head? = some '@' then Except.ok (ChanId.str cs)
  else if cs.head? = some '-' then
    if pyIsdigit cs.tail then
      Except.ok (ChanId.num (-(natOfDigits (minus100Digits (natOfDigits cs.tail)) : Int)))
    else if pyIsdigit (cs.tail.dropWhile (fun c => c == '-')) then
      Except.error ()
    else Except.ok (ChanId.str cs)
  else if pyIsdigit cs then
    Except.ok (ChanId.num
      (if 0 < natOfDigits cs then (natOfDigits cs : Int)
       else -(natOfDigits (minus100Digits 0) : Int)))
  else Except.ok (ChanId.str cs)

/-- The four leading events of a worker attempt that ends in
asyncio.TimeoutError. -/
def timeoutBlock (tp : String) : List Event :=
  [Event.semAcquire, Event.rateAcquire, Event.streamStart tp 0,
   Event.logTimeout]

/-- Trace of a worker run that hits n timeouts and then succeeds: n
nested attempt openings, the successful attempt, then the n outer
semaphore releases as the retry recursion unwinds. -/
def retryTrace (tp p c i : String) (n : Nat) : List Event :=
  List.flatten (List.replicate n (timeoutBlock tp))
    ++ [Event.semAcquire, Event.rateAcquire, Event.streamStart tp 0,
        Event.renameFile tp p, Event.logDone, Event.recordLedger c i,
        Event.persistLedger, Event.semRelease]
    ++ List.replicate n Event.semRelease

/-- A concrete video item used by witnesses. -/
def msg0 : Msg :=
  { id := 7, chatId := -100123, isPhoto := false, fileName := "v.mp4",
    fileSize := 100, date := "2024-01-01T00:00:00" }

/-- The empty starting state used by witnesses. -/
def st0 : Sys := { fs := [], history := [], saved := none }

/-- Attempt oracle whose first attempt times out after writing 5 bytes
and whose later attempts succeed. -/
def provTO : Nat → Outcome :=
  fun k => if k = 0 then Outcome.timeout 5 else Outcome.success

/-- Item for the C1 evaluation: 100-byte file with a 40-byte partial. -/
def msgC1 : Msg :=
  { id := 9, chatId := 42, isPhoto := false, fileName := "a.bin",
    fileSize := 100, date := "t" }

/-- Filesystem for the C1 evaluation: the partial file d/a.bin.part
already holds 40 of the 100 bytes. -/
def fsC1 : FS := [("d/a.bin.part", 40)]

/-- History with msg0 already recorded for its chat. -/
def histWithMsg0 : History :=
  [(toString msg0.chatId,
    [(toString msg0.id,
      { filename := "v.mp4", size := 100,
        timestamp := "2024-01-01T00:00:00" })])]

/-- json.load stand-in that always fails to parse. -/
def parseBad : String → Except Unit History := fun _ => Except.error ()

/-- json.load stand-in that always parses to the empty ledger. -/
def parseGood : String → Except Unit History := fun _ => Except.ok []

/-! ## Association-list lemmas -/

theorem lookup_filter_out {β : Type} (l : List (String × β)) (k q : String)
    (h : q ≠ k) :
    (l.filter (fun e => !(e.1 == k))).lookup q = l.lookup q := by
  induction l with
  | nil => rfl
  | cons a t ih =>
    obtain ⟨a1, b1⟩ := a
    by_cases hk : a1 = k
    · have hq : (q == k) = false := by simp [h]
      have hq2 : (q == a1) = false := by rw [hk]; exact hq
      simp [List.filter_cons, hk, List.lookup, hq, hq2, ih]
    · cases hqa : q == a1 <;>
        simp [List.filter_cons, hk, List.lookup, hqa, ih]

theorem lookup_filter_self {β : Type} (l : List (String × β)) (k : String) :
    (l.filter (fun e => !(e.1 == k))).lookup k = none := by
  induction l with
  | nil => rfl
  | cons a t ih =>
    obtain ⟨a1, b1⟩ := a
    by_cases hk : a1 = k
    · simp [List.filter_cons, hk, ih]
    · have hq : (k == a1) = false := by simp [Ne.symm hk]
      simp [List.filter_cons, hk, List.lookup, hq, ih]

theorem lookup_setAssoc_self {β : Type} (l : List (String × β)) (k : String)
    (v : β) : (setAssoc l k v).lookup k = some v := by
  simp [setAssoc, List.lookup]

theorem lookup_setAssoc_ne {β : Type} (l : List (String × β)) (k q : String)
    (v : β) (h : q ≠ k) : (setAssoc l k v).lookup q = l.lookup q := by
  have hq : (q == k) = false := by simp [h]
  simp [setAssoc, List.lookup, hq, lookup_filter_out l k q h]

/-! ## Path and dedup-check lemmas -/

theorem finalPath_ne_tmpPath (dir : String) (m : Msg) :
    finalPath dir m ≠ tmpPath dir m := by
  intro h
  have hlen : (finalPath dir m).length = (tmpPath dir m).length :=
    congrArg String.length h
  rw [tmpPath, String.length_append] at hlen
  have h5 : (".part" : String).length = 5 := rfl
  rw [h5] at hlen
  omega

theorem dedupHit_setFile_tmp (fs : FS) (h : History) (dir : String) (m : Msg)
    (w : Nat) :
    dedupHit (setFile fs (tmpPath dir m) w) h dir m = dedupHit fs h dir m := by
  unfold dedupHit fileExists
  rw [setFile, lookup_setAssoc_ne fs (tmpPath dir m) (finalPath dir m) w
    (finalPath_ne_tmpPath dir m)]

/-! ## Worker unfolding lemmas -/

theorem download_media_skip (m : Msg) (dir : String) (prov : Nat → Outcome)
    (st : Sys) (k fuel : Nat)
    (hd : dedupHit st.fs st.history dir m = true) :
    download_media m dir prov st k (fuel + 1) =
      { ret := 0, bytes := 0, st := st, trace := [Event.logSkip] } := by
  simp [download_media, hd]

theorem download_media_success (m : Msg) (dir : String) (prov : Nat → Outcome)
    (st : Sys) (k fuel : Nat)
    (hd : dedupHit st.fs st.history dir m = false)
    (hs : prov k = Outcome.success) :
    download_media m dir prov st k (fuel + 1) =
      { ret := 1, bytes := m.fileSize,
        st := { fs := setFile (removeFile (setFile st.fs (tmpPath dir m)
                  m.fileSize) (tmpPath dir m)) (finalPath dir m) m.fileSize,
                history := historyRecord st.history (toString m.chatId)
                  (toString m.id)
                  { filename := msgFilename m, size := m.fileSize,
                    timestamp := m.date },
                saved := some (historyRecord st.history (toString m.chatId)
                  (toString m.id)
                  { filename := msgFilename m, size := m.fileSize,
                    timestamp := m.date }) },
        trace := [Event.semAcquire, Event.rateAcquire,
          Event.streamStart (tmpPath dir m) 0,
          Event.renameFile (tmpPath dir m) (finalPath dir m), Event.logDone,
          Event.recordLedger (toString m.chatId) (toString m.id),
          Event.persistLedger, Event.semRelease] } := by
  simp [download_media, hd, hs]

theorem download_media_failure (m : Msg) (dir : String) (prov : Nat → Outcome)
    (st : Sys) (k fuel : Nat)
    (hd : dedupHit st.fs st.history dir m = false)
    (hf : prov k = Outcome.failure) :
    download_media m dir prov st k (fuel + 1) =
      { ret := 0, bytes := 0, st := st,
        trace := [Event.semAcquire, Event.rateAcquire,
          Event.streamStart (tmpPath dir m) 0, Event.logError,
          Event.semRelease] } := by
  simp [download_media, hd, hf]

theorem download_media_renameFailure (m : Msg) (dir : String)
    (prov : Nat → Outcome) (st : Sys) (k fuel : Nat)
    (hd : dedupHit st.fs st.history dir m = false)
    (hf : prov k = Outcome.renameFailure) :
    download_media m dir prov st k (fuel + 1) =
      { ret := 0, bytes := m.fileSize,
        st := { st with fs := setFile st.fs (tmpPath dir m) m.fileSize },
        trace := [Event.semAcquire, Event.rateAcquire,
          Event.streamStart (tmpPath dir m) 0, Event.logError,
          Event.semRelease] } := by
  simp [download_media, hd, hf]

theorem download_media_timeout_step (m : Msg) (dir : String)
    (prov : Nat → Outcome) (st : Sys) (k fuel w : Nat)
    (hd : dedupHit st.fs st.history dir m = false)
    (ht : prov k = Outcome.timeout w) :
    download_media m dir prov st k (fuel + 1) =
      { ret := (download_media m dir prov
          { st with fs := setFile st.fs (tmpPath dir m) w } (k + 1) fuel).ret,
        bytes := w + (download_media m dir prov
          { st with fs := setFile st.fs (tmpPath dir m) w } (k + 1) fuel).bytes,
        st := (download_media m dir prov
          { st with fs := setFile st.fs (tmpPath dir m) w } (k + 1) fuel).st,
        trace := timeoutBlock (tmpPath dir m)
          ++ (download_media m dir prov
            { st with fs := setFile st.fs (tmpPath dir m) w } (k + 1) fuel).trace
          ++ [Event.semRelease] } := by
  simp [download_media, hd, ht, timeoutBlock]

/-! ## The retry closed form -/

theorem retryTrace_zero (tp p c i : String) :
    retryTrace tp p c i 0 =
      [Event.semAcquire, Event.rateAcquire, Event.streamStart tp 0,
       Event.renameFile tp p, Event.logDone, Event.recordLedger c i,
       Event.persistLedger, Event.semRelease] := by
  simp [retryTrace]

theorem retryTrace_succ (tp p c i : String) (n : Nat) :
    retryTrace tp p c i (n + 1) =
      timeoutBlock tp ++ retryTrace tp p c i n ++ [Event.semRelease] := by
  simp [retryTrace, List.replicate_succ, List.append_assoc]
  rw [← List.replicate_succ, List.replicate_succ']

theorem download_media_timeout_run (m : Msg) (dir : String)
    (prov : Nat → Outcome) :
    ∀ (n : Nat) (st : Sys) (k fuel : Nat),
    dedupHit st.fs st.history dir m = false →
    (∀ i, i < n → ∃ v, prov (k + i) = Outcome.timeout v) →
    prov (k + n) = Outcome.success →
    n < fuel →
    (download_media m dir prov st k fuel).ret = 1 ∧
    (download_media m dir prov st k fuel).trace =
      retryTrace (tmpPath dir m) (finalPath dir m) (toString m.chatId)
        (toString m.id) n := by
  intro n
  induction n with
  | zero =>
    intro st k fuel hd hto hs hfuel
    obtain ⟨f, rfl⟩ : ∃ f, fuel = f + 1 := ⟨fuel - 1, by omega⟩
    have hs0 : prov k = Outcome.success := by simpa using hs
    rw [download_media_success m dir prov st k f hd hs0, retryTrace_zero]
    exact ⟨rfl, rfl⟩
  | succ nn ih =>
    intro st k fuel hd hto hs hfuel
    obtain ⟨f, rfl⟩ : ∃ f, fuel = f + 1 := ⟨fuel - 1, by omega⟩
    obtain ⟨v0, ht0⟩ := hto 0 (Nat.succ_pos nn)
    have ht0' : prov k = Outcome.timeout v0 := by simpa using ht0
    have hd1 : dedupHit (setFile st.fs (tmpPath dir m) v0) st.history dir m
        = false := by
      rw [dedupHit_setFile_tmp]; exact hd
    have hto1 : ∀ i, i < nn → ∃ v, prov (k + 1 + i) = Outcome.timeout v := by
      intro i hi
      obtain ⟨v, hv⟩ := hto (i + 1) (by omega)
      exact ⟨v, by rw [show k + 1 + i = k + (i + 1) by omega]; exact hv⟩
    have hs1 : prov (k + 1 + nn) = Outcome.success := by
      rw [show k + 1 + nn = k + (nn + 1) by omega]; exact hs
    have hrec := ih { st with fs := setFile st.fs (tmpPath dir m) v0 }
      (k + 1) f hd1 hto1 hs1 (by omega)
    rw [download_media_timeout_step m dir prov st k f v0 hd ht0',
      retryTrace_succ]
    exact ⟨hrec.1, by rw [hrec.2]⟩

/-! ## List counting and scanning helpers -/

theorem count_flatten_replicate {α : Type} [BEq α] (a : α) (n : Nat)
    (l : List α) :
    ((List.replicate n l).flatten).count a = n * l.count a := by
  induction n with
  | zero => simp
  | succ k ih =>
    simp [List.replicate_succ, List.count_append, ih]
    ring

theorem filter_flatten_replicate {α : Type} (p : α → Bool) (n : Nat)
    (l : List α) :
    ((List.replicate n l).flatten).filter p =
      (List.replicate n (l.filter p)).flatten := by
  induction n with
  | zero => rfl
  | succ k ih => simp [List.replicate_succ, List.filter_append, ih]

theorem filter_replicate_none {α : Type} (p : α → Bool) (a : α) (n : Nat)
    (h : p a = false) : (List.replicate n a).filter p = [] := by
  induction n with
  | zero => rfl
  | succ k ih => simp [List.replicate_succ, List.filter_cons, h, ih]

theorem takeWhile_append_split {α : Type} (p : α → Bool) (l1 l2 : List α) :
    (l1 ++ l2).takeWhile p =
      if l1.all p then l1 ++ l2.takeWhile p else l1.takeWhile p := by
  induction l1 with
  | nil => simp
  | cons a t ih =>
    by_cases hp : p a
    · rw [List.all_cons]
      simp only [hp, Bool.true_and]
      by_cases ha : t.all p
      · simp [List.takeWhile_cons, hp, ih, ha]
      · simp [List.takeWhile_cons, hp, ih, ha]
    · simp [List.takeWhile_cons, hp, List.all_cons]

theorem semRelease_mem_retryTrace (tp p c i : String) (n : Nat) :
    Event.semRelease ∈ retryTrace tp p c i n := by
  induction n with
  | zero => rw [retryTrace_zero]; simp
  | succ nn ih => rw [retryTrace_succ]; simp [ih]

theorem sleep_not_mem_retryTrace (tp p c i : String) (n : Nat) :
    Event.sleep ∉ retryTrace tp p c i n := by
  induction n with
  | zero => rw [retryTrace_zero]; simp
  | succ nn ih => rw [retryTrace_succ]; simp [timeoutBlock, ih]

theorem count_semAcquire_retryTrace (tp p c i : String) (n : Nat) :
    (retryTrace tp p c i n).count Event.semAcquire = n + 1 := by
  induction n with
  | zero => rw [retryTrace_zero]; simp [List.count_cons]
  | succ nn ih =>
    rw [retryTrace_succ]
    simp [List.count_append, timeoutBlock, List.count_cons, ih]

theorem count_semRelease_retryTrace (tp p c i : String) (n : Nat) :
    (retryTrace tp p c i n).count Event.semRelease = n + 1 := by
  induction n with
  | zero => rw [retryTrace_zero]; simp [List.count_cons]
  | succ nn ih =>
    rw [retryTrace_succ]
    simp [List.count_append, timeoutBlock, List.count_cons, ih]

theorem takeWhile_retryTrace (tp p c i : String) (n : Nat) :
    (retryTrace tp p c i n).takeWhile (fun e => !(e == Event.semRelease)) =
      (List.replicate n (timeoutBlock tp)).flatten
        ++ [Event.semAcquire, Event.rateAcquire, Event.streamStart tp 0,
            Event.renameFile tp p, Event.logDone, Event.recordLedger c i,
            Event.persistLedger] := by
  induction n with
  | zero => rw [retryTrace_zero]; simp [List.takeWhile_cons]
  | succ nn ih =>
    have htb : (timeoutBlock tp).all (fun e => !(e == Event.semRelease))
        = true := by simp [timeoutBlock]
    have hfalse : ¬((retryTrace tp p c i nn).all
        (fun e => !(e == Event.semRelease)) = true) := by
      rw [List.all_eq_false.mpr
        ⟨Event.semRelease, semRelease_mem_retryTrace tp p c i nn, by simp⟩]
      simp
    rw [retryTrace_succ, List.append_assoc, takeWhile_append_split,
      if_pos htb, takeWhile_append_split, if_neg hfalse, ih]
    simp [List.replicate_succ, List.append_assoc]

theorem filter_rateStream_retryTrace (tp p c i : String) (n : Nat) :
    (retryTrace tp p c i n).filter
      (fun e => (e == Event.rateAcquire) || (e == Event.streamStart tp 0)) =
      (List.replicate (n + 1)
        [Event.rateAcquire, Event.streamStart tp 0]).flatten := by
  induction n with
  | zero => rw [retryTrace_zero]; simp [List.filter_cons]
  | succ nn ih =>
    rw [retryTrace_succ, List.filter_append, List.filter_append, ih]
    simp [timeoutBlock, List.filter_cons, List.replicate_succ]

/-! ## Batch-level helpers -/

theorem download_media_skip_any_fuel (m : Msg) (dir : String)
    (prov : Nat → Outcome) (st : Sys) (k fuel : Nat)
    (hd : dedupHit st.fs st.history dir m = true) :
    (download_media m dir prov st k fuel).ret = 0 ∧
    (download_media m dir prov st k fuel).bytes = 0 ∧
    (download_media m dir prov st k fuel).st = st := by
  cases fuel with
  | zero => exact ⟨rfl, rfl, rfl⟩
  | succ f =>
    rw [download_media_skip m dir prov st k f hd]
    exact ⟨rfl, rfl, rfl⟩

theorem runItems_length (dir : String) (prov : Nat → Nat → Outcome)
    (fuel : Nat) :
    ∀ (items : List Msg) (i : Nat) (st : Sys),
    (runItems dir prov fuel items i st).1.length = items.length := by
  intro items
  induction items with
  | nil => intro i st; rfl
  | cons m rest ih => intro i st; simp [runItems, ih]

theorem runItems_all_skip (dir : String) (prov : Nat → Nat → Outcome)
    (fuel : Nat) :
    ∀ (items : List Msg) (i : Nat) (st : Sys),
    (∀ m2 ∈ items, dedupHit st.fs st.history dir m2 = true) →
    runItems dir prov fuel items i st =
      (List.replicate items.length 0, 0, st) := by
  intro items
  induction items with
  | nil => intro i st _; rfl
  | cons m rest ih =>
    intro i st h
    have hm : dedupHit st.fs st.history dir m = true :=
      h m (List.mem_cons_self m rest)
    have hrest : ∀ m2 ∈ rest, dedupHit st.fs st.history dir m2 = true :=
      fun m2 hm2 => h m2 (List.mem_cons_of_mem m hm2)
    obtain ⟨h1, h2, h3⟩ :=
      download_media_skip_any_fuel m dir (prov i) st 0 fuel hm
    simp [runItems, h1, h2, h3, ih (i + 1) st hrest, List.replicate_succ]

/-! ## Claim theorems -/

/-- C4: for every item whose final destination file already exists or
whose (collectionId, id) pair is in the loaded ledger, the worker skips
it and returns 0 transferred; a batch over items all hitting the dedup
check transfers zero bytes, counts zero successes, and leaves the state
unchanged. -/
theorem c4_dedup_idempotence (items : List Msg) (dir : String)
    (prov : Nat → Nat → Outcome) (fuel : Nat) (fs0 : FS) (h0 : History)
    (saved0 : Option History)
    (hall : ∀ m ∈ items, dedupHit fs0 h0 dir m = true) :
    (download_media_list items dir prov fuel fs0 h0 saved0).results =
      List.replicate items.length 0 ∧
    (download_media_list items dir prov fuel fs0 h0 saved0).bytes = 0 ∧
    (download_media_list items dir prov fuel fs0 h0 saved0).logged = 0 ∧
    (download_media_list items dir prov fuel fs0 h0 saved0).st =
      { fs := fs0, history := h0, saved := saved0 } := by
  have h := runItems_all_skip dir prov fuel items 0
    { fs := fs0, history := h0, saved := saved0 } hall
  simp [download_media_list, h, List.sum_replicate]

/-- C4 witness: msg0 is already in the ledger, so a one-item batch over
it reports no success and transfers zero bytes. -/
theorem c4_dedup_idempotence_witness :
    (download_media_list [msg0] "d" (fun _ _ => Outcome.success) 3 []
      histWithMsg0 none).results = List.replicate 1 0 ∧
    (download_media_list [msg0] "d" (fun _ _ => Outcome.success) 3 []
      histWithMsg0 none).bytes = 0 := by
  have h := c4_dedup_idempotence [msg0] "d" (fun _ _ => Outcome.success) 3 []
    histWithMsg0 none (by decide)
  exact ⟨h.1, h.2.1⟩

/-- C9: when the dedup check fires, download_media returns 0 before any
semaphore or rate-limiter acquisition and leaves the whole state (files,
history, durable ledger) unchanged. -/
theorem c9_dedup_frame (m : Msg) (dir : String) (prov : Nat → Outcome)
    (st : Sys) (k fuel : Nat)
    (hd : dedupHit st.fs st.history dir m = true) :
    (download_media m dir prov st k (fuel + 1)).ret = 0 ∧
    (download_media m dir prov st k (fuel + 1)).bytes = 0 ∧
    (download_media m dir prov st k (fuel + 1)).st = st ∧
    Event.semAcquire ∉ (download_media m dir prov st k (fuel + 1)).trace ∧
    Event.rateAcquire ∉ (download_media m dir prov st k (fuel + 1)).trace := by
  rw [download_media_skip m dir prov st k fuel hd]
  refine ⟨rfl, rfl, rfl, ?_, ?_⟩ <;> simp

/-- C9 witness: msg0 is recorded in histWithMsg0, so its worker returns
0 and changes nothing. -/
theorem c9_dedup_frame_witness :
    (download_media msg0 "d" provTO
      { fs := [], history := histWithMsg0, saved := none } 0 3).ret = 0 ∧
    (download_media msg0 "d" provTO
      { fs := [], history := histWithMsg0, saved := none } 0 3).st =
      { fs := [], history := histWithMsg0, saved := none } := by
  have h := c9_dedup_frame msg0 "d" provTO
    { fs := [], history := histWithMsg0, saved := none } 0 2 (by decide)
  exact ⟨h.1, h.2.2.1⟩

/-- C5: a successful transfer renames the partial file to the final
path, records the item in the in-memory ledger, persists the ledger, and
returns 1, in that order (the trace literal shows the order). -/
theorem c5_success_sequence (m : Msg) (dir : String) (prov : Nat → Outcome)
    (st : Sys) (k fuel : Nat)
    (hd : dedupHit st.fs st.history dir m = false)
    (hs : prov k = Outcome.success) :
    (download_media m dir prov st k (fuel + 1)).ret = 1 ∧
    (download_media m dir prov st k (fuel + 1)).trace =
      [Event.semAcquire, Event.rateAcquire,
       Event.streamStart (tmpPath dir m) 0,
       Event.renameFile (tmpPath dir m) (finalPath dir m), Event.logDone,
       Event.recordLedger (toString m.chatId) (toString m.id),
       Event.persistLedger, Event.semRelease] ∧
    (download_media m dir prov st k (fuel + 1)).st.history =
      historyRecord st.history (toString m.chatId) (toString m.id)
        { filename := msgFilename m, size := m.fileSize,
          timestamp := m.date } ∧
    (download_media m dir prov st k (fuel + 1)).st.saved =
      some (historyRecord st.history (toString m.chatId) (toString m.id)
        { filename := msgFilename m, size := m.fileSize,
          timestamp := m.date }) ∧
    fileExists (download_media m dir prov st k (fuel + 1)).st.fs
      (finalPath dir m) = true := by
  rw [download_media_success m dir prov st k fuel hd hs]
  refine ⟨rfl, rfl, rfl, rfl, ?_⟩
  simp [fileExists, setFile, lookup_setAssoc_self]

/-- C5 witness: a fresh msg0 download succeeds and persists its record. -/
theorem c5_success_sequence_witness :
    (download_media msg0 "d" (fun _ => Outcome.success) st0 0 1).ret = 1 ∧
    (download_media msg0 "d" (fun _ => Outcome.success) st0 0 1).st.saved =
      some (historyRecord st0.history (toString msg0.chatId)
        (toString msg0.id)
        { filename := msgFilename msg0, size := msg0.fileSize,
          timestamp := msg0.date }) := by
  have h := c5_success_sequence msg0 "d" (fun _ => Outcome.success) st0 0 0
    (by decide) rfl
  exact ⟨h.1, h.2.2.2.1⟩

/-- C7: any non-timeout failure (provider error or rename error) aborts
only that item: a single attempt is made (one streamStart), the cause is
logged, 0 is returned, the ledger (in memory and durable) is untouched,
and a batch always yields one result per item regardless of outcomes
(no propagation, no batch abort). -/
theorem c7_nontimeout_abort (m : Msg) (dir : String) (prov : Nat → Outcome)
    (st : Sys) (k fuel : Nat)
    (hd : dedupHit st.fs st.history dir m = false)
    (hf : prov k = Outcome.failure ∨ prov k = Outcome.renameFailure) :
    (download_media m dir prov st k (fuel + 1)).ret = 0 ∧
    (download_media m dir prov st k (fuel + 1)).trace =
      [Event.semAcquire, Event.rateAcquire,
       Event.streamStart (tmpPath dir m) 0, Event.logError,
       Event.semRelease] ∧
    (download_media m dir prov st k (fuel + 1)).st.history = st.history ∧
    (download_media m dir prov st k (fuel + 1)).st.saved = st.saved ∧
    (∀ (items : List Msg) (prov2 : Nat → Nat → Outcome) (fs0 : FS)
      (h0 : History) (saved0 : Option History),
      (download_media_list items dir prov2 fuel fs0 h0 saved0).results.length
        = items.length) := by
  have hmain : (download_media m dir prov st k (fuel + 1)).ret = 0 ∧
      (download_media m dir prov st k (fuel + 1)).trace =
        [Event.semAcquire, Event.rateAcquire,
         Event.streamStart (tmpPath dir m) 0, Event.logError,
         Event.semRelease] ∧
      (download_media m dir prov st k (fuel + 1)).st.history = st.history ∧
      (download_media m dir prov st k (fuel + 1)).st.saved = st.saved := by
    rcases hf with hf | hf
    · rw [download_media_failure m dir prov st k fuel hd hf]
      exact ⟨rfl, rfl, rfl, rfl⟩
    · rw [download_media_renameFailure m dir prov st k fuel hd hf]
      exact ⟨rfl, rfl, rfl, rfl⟩
  refine ⟨hmain.1, hmain.2.1, hmain.2.2.1, hmain.2.2.2, ?_⟩
  intro items prov2 fs0 h0 saved0
  simp [download_media_list, runItems_length]

/-- C7 witness: a provider failure on a fresh msg0 yields 0 with a
single logged attempt. -/
theorem c7_nontimeout_abort_witness :
    (download_media msg0 "d" (fun _ => Outcome.failure) st0 0 1).ret = 0 ∧
    (download_media msg0 "d" (fun _ => Outcome.failure) st0 0 1).st.saved
      = none := by
  have h := c7_nontimeout_abort msg0 "d" (fun _ => Outcome.failure) st0 0 0
    (by decide) (Or.inl rfl)
  exact ⟨h.1, h.2.2.2.1⟩

/-- C8: the ledger load returns the empty ledger when no durable file
exists, and otherwise returns exactly what json.load produces — a parse
failure surfaces to the caller instead of being swallowed. -/
theorem c8_ledger_load (files : List (String × String))
    (parse : String → Except Unit History) :
    (files.lookup HISTORY_FILE = none →
      load_download_history files parse = Except.ok []) ∧
    (∀ content, files.lookup HISTORY_FILE = some content →
      load_download_history files parse = parse content) := by
  constructor
  · intro h; simp [load_download_history, h]
  · intro content h; simp [load_download_history, h]

/-- C8 witness: no ledger file gives the empty ledger; a present but
unparseable file makes load fail with the parse error. -/
theorem c8_ledger_load_witness :
    load_download_history [] parseBad = Except.ok [] ∧
    load_download_history [(HISTORY_FILE, "oops")] parseBad =
      Except.error () := by
  refine ⟨(c8_ledger_load [] parseBad).1 rfl, ?_⟩
  have h := (c8_ledger_load [(HISTORY_FILE, "oops")] parseBad).2 "oops"
    (by simp [List.lookup])
  rw [h]; rfl

/-- C3 counterexample: a one-item batch whose worker succeeds has
success count 1 (computed and logged), yet download_media_list returns
None — not the count. -/
theorem c3_counterexample :
    (download_media_list [msg0] "d" (fun _ _ => Outcome.success) 1 [] []
      none).results.sum = 1 ∧
    (download_media_list [msg0] "d" (fun _ _ => Outcome.success) 1 [] []
      none).logged = 1 ∧
    (download_media_list [msg0] "d" (fun _ _ => Outcome.success) 1 [] []
      none).ret = none := by
  exact ⟨rfl, rfl, rfl⟩

/-- C3 amended: download_media_list waits for every item worker (one
result per item), computes and logs the count of successes, but returns
nothing (None); the count is observable only through the log. -/
theorem c3_logs_but_returns_none (items : List Msg) (dir : String)
    (prov : Nat → Nat → Outcome) (fuel : Nat) (fs0 : FS) (h0 : History)
    (saved0 : Option History) :
    (download_media_list items dir prov fuel fs0 h0 saved0).ret = none ∧
    (download_media_list items dir prov fuel fs0 h0 saved0).logged =
      (download_media_list items dir prov fuel fs0 h0 saved0).results.sum ∧
    (download_media_list items dir prov fuel fs0 h0 saved0).results.length =
      items.length := by
  refine ⟨rfl, rfl, ?_⟩
  simp [download_media_list, runItems_length]

/-- C1 evaluation at the failing input: the item is 100 bytes with a
40-byte partial file on disk, yet the attempt passes offset 0 (not 40)
to the stream and transfers all 100 bytes (not 60); only the final
file length matches the claim. -/
theorem c1_no_resume_offset :
    getSize fsC1 (tmpPath "d" msgC1) = 40 ∧
    msgC1.fileSize = 100 ∧
    (download_media msgC1 "d" (fun _ => Outcome.success)
      { fs := fsC1, history := [], saved := none } 0 1).trace =
      [Event.semAcquire, Event.rateAcquire,
       Event.streamStart (tmpPath "d" msgC1) 0,
       Event.renameFile (tmpPath "d" msgC1) (finalPath "d" msgC1),
       Event.logDone, Event.recordLedger "42" "9", Event.persistLedger,
       Event.semRelease] ∧
    (download_media msgC1 "d" (fun _ => Outcome.success)
      { fs := fsC1, history := [], saved := none } 0 1).bytes = 100 ∧
    getSize (download_media msgC1 "d" (fun _ => Outcome.success)
      { fs := fsC1, history := [], saved := none } 0 1).st.fs
      (finalPath "d" msgC1) = 100 := by
  exact ⟨rfl, rfl, rfl, rfl, rfl⟩

/-- C2 counterexample: on msg0 with an empty state, the first attempt
times out and the retry succeeds; the run's trace carries two semaphore
acquisitions, the second occurring while the first permit is still held
(both appear before any release), refuting permit reuse across retries. -/
theorem c2_counterexample :
    ((download_media msg0 "d" provTO st0 0 3).trace).count Event.semAcquire
      = 2 ∧
    (((download_media msg0 "d" provTO st0 0 3).trace.takeWhile
      (fun e => !(e == Event.semRelease))).count Event.semAcquire) = 2 := by
  exact ⟨rfl, rfl⟩

/-- C2 amended: a retried attempt re-acquires a fresh permit from the
concurrency gate while the original permit is still held: a run with n
timeouts then success performs n + 1 acquisitions and n + 1 releases,
and all n + 1 acquisitions precede the first release (the permits are
held simultaneously, released only as the retry recursion unwinds). -/
theorem c2_nested_permits (m : Msg) (dir : String) (prov : Nat → Outcome)
    (st : Sys) (k n fuel : Nat)
    (hd : dedupHit st.fs st.history dir m = false)
    (hto : ∀ i, i < n → ∃ v, prov (k + i) = Outcome.timeout v)
    (hs : prov (k + n) = Outcome.success)
    (hfuel : n < fuel) :
    (download_media m dir prov st k fuel).trace.count Event.semAcquire
      = n + 1 ∧
    (download_media m dir prov st k fuel).trace.count Event.semRelease
      = n + 1 ∧
    ((download_media m dir prov st k fuel).trace.takeWhile
      (fun e => !(e == Event.semRelease))).count Event.semAcquire
      = n + 1 := by
  obtain ⟨hret, htr⟩ :=
    download_media_timeout_run m dir prov n st k fuel hd hto hs hfuel
  rw [htr]
  refine ⟨count_semAcquire_retryTrace _ _ _ _ n,
    count_semRelease_retryTrace _ _ _ _ n, ?_⟩
  rw [takeWhile_retryTrace]
  simp [List.count_append, timeoutBlock, count_flatten_replicate,
    List.count_cons]

/-- C2 amended witness: two timeouts then success on msg0 holds three
permits at once. -/
theorem c2_nested_permits_witness :
    (download_media msg0 "d"
      (fun k => if k < 2 then Outcome.timeout 7 else Outcome.success)
      st0 0 5).trace.count Event.semAcquire = 3 ∧
    ((download_media msg0 "d"
      (fun k => if k < 2 then Outcome.timeout 7 else Outcome.success)
      st0 0 5).trace.takeWhile
      (fun e => !(e == Event.semRelease))).count Event.semAcquire = 3 := by
  have h := c2_nested_permits msg0 "d"
    (fun k => if k < 2 then Outcome.timeout 7 else Outcome.success)
    st0 0 2 5 (by decide)
    (fun i hi => ⟨7, by have h2 : i < 2 := hi; simp [h2]⟩)
    (by simp) (by omega)
  exact ⟨h.1, h.2.2⟩

/-- C6: a timeout-class failure is retried on the same item with no
attempt bound (for every n, n timeouts are followed by an (n+1)-th
attempt) and no backoff (no sleep event ever appears); each attempt,
retries included, acquires a rate-limiter token immediately before its
stream starts, as the filtered trace shows. -/
theorem c6_timeout_retry_policy (m : Msg) (dir : String)
    (prov : Nat → Outcome) (st : Sys) (k n fuel : Nat)
    (hd : dedupHit st.fs st.history dir m = false)
    (hto : ∀ i, i < n → ∃ v, prov (k + i) = Outcome.timeout v)
    (hs : prov (k + n) = Outcome.success)
    (hfuel : n < fuel) :
    (download_media m dir prov st k fuel).ret = 1 ∧
    (download_media m dir prov st k fuel).trace.filter
      (fun e => (e == Event.rateAcquire)
        || (e == Event.streamStart (tmpPath dir m) 0)) =
      (List.replicate (n + 1)
        [Event.rateAcquire, Event.streamStart (tmpPath dir m) 0]).flatten ∧
    Event.sleep ∉ (download_media m dir prov st k fuel).trace := by
  obtain ⟨hret, htr⟩ :=
    download_media_timeout_run m dir prov n st k fuel hd hto hs hfuel
  refine ⟨hret, ?_, ?_⟩
  · rw [htr]
    exact filter_rateStream_retryTrace _ _ _ _ n
  · rw [htr]
    exact sleep_not_mem_retryTrace _ _ _ _ n

/-- C6 witness: one timeout then success on msg0 makes two attempts,
each taking a rate token before streaming, with no sleep. -/
theorem c6_timeout_retry_policy_witness :
    (download_media msg0 "d" provTO st0 0 3).ret = 1 ∧
    Event.sleep ∉ (download_media msg0 "d" provTO st0 0 3).trace := by
  have h := c6_timeout_retry_policy msg0 "d" provTO st0 0 1 3 (by decide)
    (fun i hi => ⟨5, by
      have h1 : i = 0 := by omega
      subst h1
      rfl⟩)
    (by simp [provTO]) (by omega)
  exact ⟨h.1, h.2.2⟩

/-! ## Character and parsing lemmas for process_channel_input -/

theorem digitChar_isDigit (n : Nat) : (digitChar n).isDigit = true := by
  unfold digitChar
  repeat' split
  all_goals decide

theorem natReprAux_digits (fuel : Nat) :
    ∀ n, (natReprAux fuel n).all Char.isDigit = true := by
  induction fuel with
  | zero => intro n; rfl
  | succ f ih =>
    intro n
    rw [natReprAux]
    by_cases h : n = 0
    · simp [h]
    · simp [h, List.all_append, ih (n / 10), digitChar_isDigit]

theorem natRepr_digits (n : Nat) : (natRepr n).all Char.isDigit = true := by
  unfold natRepr
  by_cases h : n = 0
  · simp [h]
  · simp [h, natReprAux_digits]

theorem pyIsdigit_minus100 (a : Nat) : pyIsdigit (minus100Digits a) = true := by
  simp [pyIsdigit, minus100Digits, List.all_cons, natRepr_digits]

theorem pyIsdigit_head (c : Char) (l : List Char)
    (h : pyIsdigit (c :: l) = true) : c.isDigit = true := by
  simp [pyIsdigit, List.all_cons] at h
  exact h.1

theorem pyInt_neg_digits (l : List Char) (h : pyIsdigit l = true) :
    pyInt? ('-' :: l) = some (-(natOfDigits l : Int)) := by
  simp [pyInt?, h]

theorem pyInt_digits (c : Char) (l : List Char)
    (h : pyIsdigit (c :: l) = true) :
    pyInt? (c :: l) = some ((natOfDigits (c :: l) : Int)) := by
  have hc : c.isDigit = true := pyIsdigit_head c l h
  have hcm : c ≠ '-' := by
    intro he; rw [he] at hc; exact absurd hc (by decide)
  have hcp : c ≠ '+' := by
    intro he; rw [he] at hc; exact absurd hc (by decide)
  simp [pyInt?, hcm, hcp, h]

theorem dropWhile_dash_of_digits (l : List Char) (h : pyIsdigit l = true) :
    l.dropWhile (fun c => c == '-') = l := by
  cases l with
  | nil => rfl
  | cons c t =>
    have hc : c.isDigit = true := pyIsdigit_head c t h
    have hcc : (c == '-') = false := by
      cases hb : c == '-'
      · rfl
      · have he : c = '-' := by simpa using hb
        rw [he] at hc
        exact absurd hc (by decide)
    simp [List.dropWhile_cons, hcc]

/-- C10 counterexample: for the input "--5" the stripped remainder "5"
is all digits, yet process_channel_input raises (int("--5") is a
ValueError) instead of returning a value, refuting the claim that the
digit branch always returns an integer. -/
theorem c10_counterexample :
    pyIsdigit ((['-', '-', '5'] : List Char).dropWhile (fun c => c == '-'))
      = true ∧
    process_channel_input ['-', '-', '5'] = Except.error () := by
  exact ⟨rfl, rfl⟩

/-- C10 amended: process_channel_input behaves exactly as
channel_amended_spec: '@'-prefixed input unchanged; at most one leading
'-' followed by digits parses (positive values returned as-is, the rest
mapped to -100-concatenation); two or more leading '-' followed by
digits raise ValueError; everything else unchanged. -/
theorem c10_amended_equiv (cs : List Char) :
    process_channel_input cs = channel_amended_spec cs := by
  by_cases hat : cs.head? = some '@'
  · simp [process_channel_input, channel_amended_spec, hat]
  · cases cs with
    | nil => simp [process_channel_input, channel_amended_spec, pyIsdigit]
    | cons c rest =>
      by_cases hdash : c = '-'
      · subst hdash
        by_cases hr : pyIsdigit rest = true
        · have hdw : rest.dropWhile (fun x => x == '-') = rest :=
            dropWhile_dash_of_digits rest hr
          have hneg : pyInt? ('-' :: rest) = some (-(natOfDigits rest : Int)) :=
            pyInt_neg_digits rest hr
          have hnpos : ¬(0 < -(natOfDigits rest : Int)) := by omega
          have habs : (-(natOfDigits rest : Int)).natAbs = natOfDigits rest := by
            simp
          have hinner : pyInt? ('-' :: minus100Digits (natOfDigits rest)) =
              some (-(natOfDigits (minus100Digits (natOfDigits rest)) : Int)) :=
            pyInt_neg_digits _ (pyIsdigit_minus100 _)
          simp [process_channel_input, channel_amended_spec, hat,
            List.dropWhile_cons, hdw, hr, hneg, hnpos, habs, hinner]
        · by_cases hdd :
              pyIsdigit (rest.dropWhile (fun x => x == '-')) = true
          · have hnone : pyInt? ('-' :: rest) = none := by
              simp [pyInt?, hr]
            simp [process_channel_input, channel_amended_spec, hat,
              List.dropWhile_cons, hdd, hr, hnone]
          · simp [process_channel_input, channel_amended_spec, hat,
              List.dropWhile_cons, hdd, hr]
      · have hcb : (c == '-') = false := by
          cases hb : c == '-'
          · rfl
          · exact absurd (by simpa using hb) hdash
        by_cases hd : pyIsdigit (c :: rest) = true
        · have hint : pyInt? (c :: rest) =
              some ((natOfDigits (c :: rest) : Int)) := pyInt_digits c rest hd
          by_cases hpos : 0 < natOfDigits (c :: rest)
          · have hposI : (0 : Int) < (natOfDigits (c :: rest) : Int) := by
              exact_mod_cast hpos
            simp [process_channel_input, channel_amended_spec, hat,
              List.dropWhile_cons, hcb, hd, hint, hpos, hposI, hdash]
          · have hz : natOfDigits (c :: rest) = 0 := by omega
            have hnposI : ¬((0 : Int) < (natOfDigits (c :: rest) : Int)) := by
              omega
            have hinner : pyInt? ('-' :: minus100Digits 0) =
                some (-(natOfDigits (minus100Digits 0) : Int)) :=
              pyInt_neg_digits _ (pyIsdigit_minus100 _)
            simp [process_channel_input, channel_amended_spec, hat,
              List.dropWhile_cons, hcb, hd, hint, hpos, hz, hnposI, hinner,
              hdash]
        · simp [process_channel_input, channel_amended_spec, hat,
            List.dropWhile_cons, hcb, hd, hdash]
